import Mathlib

/-!
Verification of the Radiowecker control core.

This file is a shallow embedding, in Lean, of the parts of the Radiowecker
source that the specification talks about:

* `file_system.py` — directory scanning (`scan_directory`) and the bounded
  recursive audio finder (`find_audio_files_recursively`);
* `audio.py` — the `AudioManager` playback coordinator: its scan methods,
  playlist builder (`_create_playlist_from_file` and the SD-card variant),
  the play/stop operations and `navigate_to`, and `load_stations`;
* `settings.py` — `MenuItem.increase` / `MenuItem.decrease` and the concrete
  settings items;
* `ui.py` — the menu-button branch of `UI.handle_button`.

Python strings are modelled as Lean `String`s, but every string operation the
code relies on (comparison, strip, split, path joining, extensions) is
re-implemented here on the underlying character list so that all definitions
evaluate inside the kernel.  The filesystem is abstract: a map from paths to
directory listings plus, for `os.walk`, a finite directory tree.
-/

namespace Radiowecker

/-! ### Python string primitives -/

/-- Lexicographic comparison of character lists by code point.  This is how
Python compares two `str` values (and hence how `sorted` orders them). -/
def charListLe : List Char → List Char → Bool
  | [], _ => true
  | _ :: _, [] => false
  | a :: as, b :: bs =>
    if a.toNat < b.toNat then true
    else if b.toNat < a.toNat then false
    else charListLe as bs

/-- Python `a <= b` on strings. -/
def strLe (a b : String) : Bool :=
  charListLe a.data b.data

/-- Characters removed by Python `str.strip()` (ASCII whitespace; the code
only ever strips station names and URLs read from a CSV file). -/
def isPySpace (c : Char) : Bool :=
  [' ', '\t', '\n', '\r', '\x0b', '\x0c'].contains c

/-- Python `str.strip()`: drop whitespace from both ends. -/
def pyStrip (s : String) : String :=
  String.mk (((s.data.dropWhile isPySpace).reverse.dropWhile isPySpace).reverse)

/-- Split a character list at every comma. -/
def splitCommaAux : List Char → List Char → List (List Char)
  | [], cur => [cur.reverse]
  | c :: rest, cur =>
    if c = ',' then cur.reverse :: splitCommaAux rest []
    else splitCommaAux rest (c :: cur)

/-- Split a string at commas, as Python's `csv.reader` does for a plain
unquoted line (the station files in this project use no quoting). -/
def splitComma (s : String) : List String :=
  (splitCommaAux s.data []).map String.mk

/-- One parsed row of `csv.reader`: a blank line yields an empty row (no
fields), any other line yields its comma-separated fields. -/
def csvRow (line : String) : List String :=
  if line = "" then [] else splitComma line

/-- Python `os.path.join(d, n)` for the shapes used here (a directory and a
plain entry name). -/
def pathJoin (d n : String) : String :=
  if d.data.getLast? = some '/' then d ++ n else d ++ "/" ++ n

/-- Python `os.path.basename`: the part after the last slash. -/
def basename (p : String) : String :=
  String.mk ((p.data.reverse.takeWhile (fun c => c ≠ '/')).reverse)

/-- Python `str(pathlib.Path(p).parent)` for the absolute and relative paths
this code navigates. -/
def parentPath (p : String) : String :=
  let cs := (p.data.reverse.dropWhile (fun c => c = '/')).reverse
  if cs = [] then "/"
  else
    let cut := (cs.reverse.dropWhile (fun c => c ≠ '/')).reverse
    if cut = [] then "."
    else if cut = ['/'] then "/"
    else String.mk cut.dropLast

/-- Python `os.path.splitext(name)[1].lower()`: the (lowercased) extension
including the dot; leading dots of the name do not start an extension. -/
def lowerExt (name : String) : String :=
  let rest := name.data.dropWhile (fun c => c = '.')
  let after := rest.reverse.takeWhile (fun c => c ≠ '.')
  if after.length = rest.length then ""
  else String.mk (('.' :: after.reverse).map Char.toLower)

/-- Python `name.startswith('.')`. -/
def startsWithDot (name : String) : Bool :=
  name.data.head? = some '.'

/-! ### Constants from `audio_types.py` and `audio.py` -/

/-- `SUPPORTED_AUDIO_EXTENSIONS` from `audio_types.py` (the identical literal
list also appears inline in `AudioManager._is_audio_file`). -/
def SUPPORTED_AUDIO_EXTENSIONS : List String :=
  [".mp3", ".wav", ".ogg", ".m4a", ".flac"]

/-- `THIS_DIR`, identical in `audio_types.py` and `audio.py`. -/
def THIS_DIR : String := "<dieser Ordner>"

/-- `BACK` as defined in `audio_types.py` (used by `file_system.py`); its
bytes are mojibake and differ from the `BACK` constant in `audio.py`. -/
def fsBACK : String := "<zurÃ¼ck>"

/-- `BACK` as defined in `audio.py` (used by `AudioManager`). -/
def amBACK : String := "<zurück>"

/-- `is_audio_file` from `file_system.py` (and `AudioManager._is_audio_file`,
which is the same code): extension membership test, case-insensitive. -/
def is_audio_file (filename : String) : Bool :=
  SUPPORTED_AUDIO_EXTENSIONS.contains (lowerExt filename)

/-! ### Data model (`audio_types.py` / `audio.py`) -/

/-- `AudioFile`: one entry of a directory listing. -/
structure AudioFile where
  path : String
  is_dir : Bool
  name : String
  is_special : Bool
deriving DecidableEq, Repr

/-- The `AudioFile.__init__` constructor: `name` defaults to
`os.path.basename(path)`, and an explicitly passed empty name is falsy in
Python and falls back to the basename as well. -/
def mkAudioFile (path : String) (is_dir : Bool) (name : Option String)
    (is_special : Bool) : AudioFile :=
  { path := path
    is_dir := is_dir
    is_special := is_special
    name :=
      match name with
      | some n => if n = "" then basename path else n
      | none => basename path }

/-- `AudioStation`. -/
structure AudioStation where
  name : String
  url : String
deriving DecidableEq, Repr

/-- `AudioSource`. -/
inductive AudioSource where
  | usb
  | sd_card
  | radio
deriving DecidableEq, Repr

/-- `AudioCommand` (tag plus payload). -/
inductive AudioCommand where
  | playStationCmd (station : AudioStation)
  | playFileCmd (file : AudioFile)
  | stopCmd
  | togglePauseCmd
  | muteBluetoothCmd
  | unmuteBluetoothCmd
deriving DecidableEq, Repr

/-! ### Abstract filesystem -/

/-- What `os.listdir` reports about one entry: its name and what
`os.path.isdir` / `os.path.isfile` answer for its path. -/
structure DirEntry where
  name : String
  isDir : Bool
  isFile : Bool
deriving DecidableEq, Repr

/-- Outcome of probing a path: `missing` models `os.path.exists` returning
false, the two error cases model the exceptions `os.listdir` can raise, and
`entries` is a successful listing. -/
inductive DirListing where
  | missing
  | permissionDenied
  | ioError (msg : String)
  | entries (es : List DirEntry)

mutual
/-- A finite directory subtree, as traversed by `os.walk`: the audio-relevant
file names in this directory and the named subdirectories. -/
inductive FSTree where
  | node (files : List String) (dirs : FSForest)

/-- The named subdirectories of a directory, in `os.walk` order. -/
inductive FSForest where
  | nil
  | cons (name : String) (t : FSTree) (rest : FSForest)
end

/-- The abstract filesystem: `lookup` drives `scan_directory`
(`os.path.exists` / `os.listdir` / `os.path.isdir` / `os.path.isfile`), and
`walkTree` gives the subtree that `os.walk` would traverse from a path
(`none` when the path does not exist or is not a directory). -/
structure Filesystem where
  lookup : String → DirListing
  walkTree : String → Option FSTree

/-- Python `sorted` on a list of `DirEntry`, comparing by name: a stable sort
in code-point order.  (`scan_directory` iterates `sorted(entries)` over the
listed names; carrying the entry metadata along with each name lets the model
consult `isDir`/`isFile` afterwards, exactly as the code re-probes the
filesystem per name.) -/
def pySortedEntries (es : List DirEntry) : List DirEntry :=
  List.insertionSort (fun a b => strLe a.name b.name = true) es

/-! ### `file_system.py` -/

/-- `scan_directory` from `file_system.py`: error listings substitute a single
special entry; otherwise the ThisFolder entry, then (unless at the root) the
Back entry, then non-hidden subdirectories sorted by name, then audio files
sorted by name.  The final `len(result) == 0` check in the source is dead
code (the ThisFolder entry is always present) and is therefore not
represented. -/
def scan_directory (fs : Filesystem) (directory : String) (is_sd_card : Bool)
    (root_path : String) : List AudioFile :=
  let current_storage_name := if is_sd_card then "SD card" else "USB"
  match fs.lookup directory with
  | .missing =>
      [mkAudioFile directory false (some (current_storage_name ++ " not mounted")) true]
  | .permissionDenied =>
      [mkAudioFile directory false (some "Permission denied") true]
  | .ioError e =>
      [mkAudioFile directory false (some ("Error: " ++ e)) true]
  | .entries es =>
      let sortedEs := pySortedEntries es
      [mkAudioFile directory false (some THIS_DIR) true]
        ++ (if directory ≠ root_path then
              [mkAudioFile directory false (some fsBACK) true]
            else [])
        ++ (sortedEs.filter (fun e => e.isDir && !startsWithDot e.name)).map
            (fun e => mkAudioFile (pathJoin directory e.name) true (some e.name) false)
        ++ (sortedEs.filter (fun e => e.isFile && is_audio_file e.name)).map
            (fun e => mkAudioFile (pathJoin directory e.name) false (some e.name) false)

/-- The per-directory file loop of `find_audio_files_recursively`: skip hidden
files, stop as soon as `max_files` entries have been collected, append audio
files (with the default basename name). -/
def walkFilesStep (maxFiles : Nat) (root : String) :
    List String → List AudioFile → List AudioFile
  | [], acc => acc
  | f :: rest, acc =>
    if startsWithDot f then walkFilesStep maxFiles root rest acc
    else if maxFiles ≤ acc.length then acc
    else if is_audio_file f then
      walkFilesStep maxFiles root rest (acc ++ [mkAudioFile (pathJoin root f) false none false])
    else walkFilesStep maxFiles root rest acc

/-- Descend into the subdirectories of a directory
(`dirs[:] = [d for d in dirs if not d.startswith('.')]` keeps only non-hidden
ones): each non-hidden subdirectory is walked in full — its own files first,
then its subforest — before its right siblings, which is the `os.walk`
top-down order. -/
def findRecDirs (maxFiles : Nat) (parent : String) : FSForest → List AudioFile → List AudioFile
  | .nil, acc => acc
  | .cons n t rest, acc =>
      if startsWithDot n then findRecDirs maxFiles parent rest acc
      else
        match t with
        | .node files dirs =>
            findRecDirs maxFiles parent rest
              (findRecDirs maxFiles (pathJoin parent n) dirs
                (walkFilesStep maxFiles (pathJoin parent n) files acc))

/-- `os.walk` portion of `find_audio_files_recursively`: process the files of
the starting directory, then descend into each non-hidden subdirectory in
order. -/
def findRecTree (maxFiles : Nat) (dirPath : String) (t : FSTree)
    (acc : List AudioFile) : List AudioFile :=
  match t with
  | .node files dirs => findRecDirs maxFiles dirPath dirs (walkFilesStep maxFiles dirPath files acc)

/-- `find_audio_files_recursively` from `file_system.py`; the private
`AudioManager._find_audio_files_recursively` in `audio.py` is a line-for-line
copy and is modelled by this same function.  A path that does not exist or is
not a directory yields the empty list. -/
def find_audio_files_recursively (fs : Filesystem) (directory : String)
    (maxFiles : Nat) : List AudioFile :=
  match fs.walkTree directory with
  | none => []
  | some t => findRecTree maxFiles directory t []

/-! ### `audio.py`: the `AudioManager` coordinator

The mutable attributes of `AudioManager` that the specified logic reads or
writes are collected in one state record.  The VLC engine is represented by
the `media_list` (the list of media paths currently loaded; `FILE_PATH_PREFIX`
is the empty string, so a media path is just the file path) and a `playing`
flag; the command queue is the list of not-yet-drained commands. -/

structure AMState where
  current_dir : String
  files : List AudioFile
  sd_card_mount_point : String
  sd_card_dir : String
  sd_card_files : List AudioFile
  current_station : Option AudioStation
  current_file : Option AudioFile
  current_sd_file : Option AudioFile
  source : AudioSource
  media_list : List String
  queue : List AudioCommand
  playing : Bool
deriving DecidableEq, Repr

/-- The listing built by `AudioManager.scan_directory` (its own near-copy of
`file_system.scan_directory`): error names are "Directory not found" /
"Permission denied" / "Error: …", the root is the hard-coded `"/"`, and the
Back name is the `audio.py` constant.  The trailing emptiness check is dead
code here as well. -/
def amScanListing (fs : Filesystem) (directory : String) : List AudioFile :=
  match fs.lookup directory with
  | .missing =>
      [mkAudioFile directory false (some "Directory not found") true]
  | .permissionDenied =>
      [mkAudioFile directory false (some "Permission denied") true]
  | .ioError e =>
      [mkAudioFile directory false (some ("Error: " ++ e)) true]
  | .entries es =>
      let sortedEs := pySortedEntries es
      [mkAudioFile directory false (some THIS_DIR) true]
        ++ (if directory ≠ "/" then
              [mkAudioFile directory false (some amBACK) true]
            else [])
        ++ (sortedEs.filter (fun e => e.isDir && !startsWithDot e.name)).map
            (fun e => mkAudioFile (pathJoin directory e.name) true (some e.name) false)
        ++ (sortedEs.filter (fun e => e.isFile && is_audio_file e.name)).map
            (fun e => mkAudioFile (pathJoin directory e.name) false (some e.name) false)

/-- Same listing for `AudioManager.scan_sd_card_directory`: the missing-path
name is "SD card not mounted" and the root is `self.sd_card_mount_point`. -/
def amScanSdListing (fs : Filesystem) (directory mount : String) : List AudioFile :=
  match fs.lookup directory with
  | .missing =>
      [mkAudioFile directory false (some "SD card not mounted") true]
  | .permissionDenied =>
      [mkAudioFile directory false (some "Permission denied") true]
  | .ioError e =>
      [mkAudioFile directory false (some ("Error: " ++ e)) true]
  | .entries es =>
      let sortedEs := pySortedEntries es
      [mkAudioFile directory false (some THIS_DIR) true]
        ++ (if directory ≠ mount then
              [mkAudioFile directory false (some amBACK) true]
            else [])
        ++ (sortedEs.filter (fun e => e.isDir && !startsWithDot e.name)).map
            (fun e => mkAudioFile (pathJoin directory e.name) true (some e.name) false)
        ++ (sortedEs.filter (fun e => e.isFile && is_audio_file e.name)).map
            (fun e => mkAudioFile (pathJoin directory e.name) false (some e.name) false)

/-- `AudioManager.scan_directory(directory)` with an explicit argument: sets
`current_dir` and rebuilds `files`. -/
def amScanDirectory (fs : Filesystem) (s : AMState) (directory : String) : AMState :=
  { s with current_dir := directory, files := amScanListing fs directory }

/-- `AudioManager.scan_sd_card_directory(directory)` with an explicit
argument. -/
def amScanSdDirectory (fs : Filesystem) (s : AMState) (directory : String) : AMState :=
  { s with sd_card_dir := directory
           sd_card_files := amScanSdListing fs directory s.sd_card_mount_point }

/-- The playable filter used throughout `_create_playlist_from_file`:
`[f for f in self.files if not f.is_dir and not f.is_special]`. -/
def playable_files (files : List AudioFile) : List AudioFile :=
  files.filter (fun f => !f.is_dir && !f.is_special)

/-- The `try: playable_files.index(start_file) except ValueError: 0` step. -/
def rotation_start_index (playable : List AudioFile) (start_file : AudioFile) : Nat :=
  if start_file ∈ playable then playable.indexOf start_file else 0

/-- `playlist_order = playable_files[start_idx:] + playable_files[:start_idx]`. -/
def playlist_order (playable : List AudioFile) (start_file : AudioFile) : List AudioFile :=
  playable.drop (rotation_start_index playable start_file)
    ++ playable.take (rotation_start_index playable start_file)

/-- Adding files to the VLC media list: each file contributes the media path
`FILE_PATH_PREFIX + file.path`, and `FILE_PATH_PREFIX` is `""`. -/
def mediaPaths (l : List AudioFile) : List String :=
  l.map (fun f => f.path)

/-- `AudioManager._create_playlist_from_file(start_file)`.  The existing media
list is cleared unconditionally before any branch runs.  `shuffle` stands for
`random.shuffle` (an unknown permutation, passed in as a parameter); the
recursive scan is capped at `max_files=100` and the shuffled result truncated
to 20 entries. -/
def _create_playlist_from_file (fs : Filesystem)
    (shuffle : List AudioFile → List AudioFile) (s0 : AMState)
    (start_file : AudioFile) : Bool × AMState :=
  let s := { s0 with media_list := [] }
  if start_file.is_special = true ∧ start_file.name = THIS_DIR then
    let all_files := find_audio_files_recursively fs s.current_dir 100
    if all_files ≠ [] then
      let playlist_files := (shuffle all_files).take 20
      (true, { s with media_list := mediaPaths playlist_files, source := .usb })
    else
      let pf := playable_files s.files
      if pf ≠ [] then
        (true, { s with media_list := mediaPaths pf, source := .usb })
      else (false, s)
  else
    let pf := playable_files s.files
    if pf = [] then (false, s)
    else if start_file.is_dir then
      let old_dir := s.current_dir
      let s1 := amScanDirectory fs s start_file.path
      match playable_files s1.files with
      | [] => (false, amScanDirectory fs s1 old_dir)
      | st0 :: pfRest =>
          (true, { s1 with media_list := mediaPaths (playlist_order (st0 :: pfRest) st0)
                           source := .usb })
    else
      (true, { s with media_list := mediaPaths (playlist_order pf start_file)
                      source := .usb })

/-- `AudioManager._create_sd_card_playlist_from_file(start_file)`: the SD-card
twin of the playlist builder. -/
def _create_sd_card_playlist_from_file (fs : Filesystem)
    (shuffle : List AudioFile → List AudioFile) (s0 : AMState)
    (start_file : AudioFile) : Bool × AMState :=
  let s := { s0 with media_list := [] }
  if start_file.is_special = true ∧ start_file.name = THIS_DIR then
    let all_files := find_audio_files_recursively fs s.sd_card_dir 100
    if all_files ≠ [] then
      let playlist_files := (shuffle all_files).take 20
      (true, { s with media_list := mediaPaths playlist_files, source := .sd_card })
    else
      let pf := playable_files s.sd_card_files
      if pf ≠ [] then
        (true, { s with media_list := mediaPaths pf, source := .sd_card })
      else (false, s)
  else
    let pf := playable_files s.sd_card_files
    if pf = [] then (false, s)
    else if start_file.is_dir then
      let old_dir := s.sd_card_dir
      let s1 := amScanSdDirectory fs s start_file.path
      match playable_files s1.sd_card_files with
      | [] => (false, amScanSdDirectory fs s1 old_dir)
      | st0 :: pfRest =>
          (true, { s1 with media_list := mediaPaths (playlist_order (st0 :: pfRest) st0)
                           source := .sd_card })
    else
      (true, { s with media_list := mediaPaths (playlist_order pf start_file)
                      source := .sd_card })

/-- `AudioManager._stop`: stop the player and the list player and clear the
media list. -/
def _stop (s : AMState) : AMState :=
  { s with playing := false, media_list := [] }

/-- `AudioManager._play_station` (VLC initialized): set the current-item
fields, stop existing playback, load the station URL and play.  All three
current-item fields are written. -/
def _play_station (s : AMState) (station : AudioStation) : AMState :=
  let s1 := { s with current_station := some station
                     current_file := none
                     current_sd_file := none
                     source := .radio }
  let s2 := _stop s1
  { s2 with playing := true }

/-- `AudioManager.play_file` (public entry, VLC available): stop the player,
set the USB fields and clear the other two sources, then try to build a
playlist; on success start the list player, otherwise fall back to enqueuing
a `PLAY_FILE` command. -/
def play_file (fs : Filesystem) (shuffle : List AudioFile → List AudioFile)
    (s : AMState) (file : AudioFile) : AMState :=
  let s1 := { s with playing := false }
  let s2 := { s1 with current_file := some file
                      current_station := none
                      current_sd_file := none
                      source := .usb }
  match _create_playlist_from_file fs shuffle s2 file with
  | (true, s3) => { s3 with playing := true }
  | (false, s3) => { s3 with queue := s3.queue ++ [.playFileCmd file] }

/-- `AudioManager.play_sd_card_file` (public entry, VLC available). -/
def play_sd_card_file (fs : Filesystem) (shuffle : List AudioFile → List AudioFile)
    (s : AMState) (file : AudioFile) : AMState :=
  let s1 := { s with playing := false }
  let s2 := { s1 with current_sd_file := some file
                      current_station := none
                      current_file := none
                      source := .sd_card }
  match _create_sd_card_playlist_from_file fs shuffle s2 file with
  | (true, s3) => { s3 with playing := true }
  | (false, s3) => { s3 with queue := s3.queue ++ [.playFileCmd file] }

/-- `AudioManager._play_file` (the queue-drain handler, player initialized):
sets `current_file`, clears `current_station` — and, unlike the other play
operations, never touches `current_sd_file` — then stops and rebuilds the
playlist. -/
def _play_file (fs : Filesystem) (shuffle : List AudioFile → List AudioFile)
    (s : AMState) (file : AudioFile) : AMState :=
  let s1 := { s with current_file := some file, current_station := none }
  let s2 := _stop s1
  match _create_playlist_from_file fs shuffle s2 file with
  | (true, s3) => { s3 with playing := true }
  | (false, s3) => s3

/-- `AudioManager.navigate_to(audio_file)`: enter a directory, go back, or
play; returns whether the browser moved to a new directory. -/
def navigate_to (fs : Filesystem) (shuffle : List AudioFile → List AudioFile)
    (s : AMState) (audio_file : AudioFile) : Bool × AMState :=
  if audio_file.is_dir = true ∧ audio_file.is_special = false then
    let s1 := amScanDirectory fs s audio_file.path
    match s1.files with
    | [] => (true, { s1 with current_file := none })
    | f0 :: _ => (true, { s1 with current_file := some f0 })
  else if audio_file.is_special = true ∧ audio_file.name = amBACK then
    let old_dir := s.current_dir
    let s1 := amScanDirectory fs s (parentPath s.current_dir)
    match s1.files with
    | [] => (true, { s1 with current_file := none })
    | f0 :: _ =>
        match s1.files.find? (fun f => f.is_dir && f.path == old_dir) with
        | some f => (true, { s1 with current_file := some f })
        | none => (true, { s1 with current_file := some f0 })
  else if audio_file.is_special = true ∧ audio_file.name = THIS_DIR then
    (false, play_file fs shuffle s audio_file)
  else
    (false, play_file fs shuffle s audio_file)

/-- The default stations used when `stations.csv` is missing. -/
def default_stations : List AudioStation :=
  [{ name := "Radio Example 1", url := "http://example.com/stream1" },
   { name := "Radio Example 2", url := "http://example.com/stream2" }]

/-- The list comprehension in `load_stations`: unpack every CSV row into
`name, url` (any row without exactly two fields raises `ValueError`), keep
the rows where both fields are truthy, and strip both fields. -/
def parseStationRows : List (List String) → Except String (List AudioStation)
  | [] => .ok []
  | row :: rest =>
    match row with
    | [name, url] =>
        match parseStationRows rest with
        | .error e => .error e
        | .ok sts =>
            if name ≠ "" ∧ url ≠ "" then
              .ok ({ name := pyStrip name, url := pyStrip url } :: sts)
            else .ok sts
    | _ => .error "ValueError: not enough values to unpack"

/-- `AudioManager.load_stations`: `none` stands for a missing file
(`FileNotFoundError` is caught and the defaults substituted); otherwise the
file's lines are parsed by `csv.reader` and the comprehension above.  An
`Except.error` models an exception escaping `load_stations` (only
`FileNotFoundError` is caught by the code). -/
def load_stations (contents : Option (List String)) : Except String (List AudioStation) :=
  match contents with
  | none => .ok default_stations
  | some lines => parseStationRows (lines.map csvRow)

/-! ### `settings.py` -/

/-- A `MenuItem.value` (Python `Any`): an int, a bool, or the status string. -/
inductive MenuValue where
  | intVal (n : Int)
  | boolVal (b : Bool)
  | statusVal (s : String)
deriving DecidableEq, Repr

/-- Python's numeric coercion of a value (`True` is 1, `False` is 0).  On a
string value Python arithmetic would raise `TypeError`; that case is
unreachable for well-typed items and mapped to 0 here. -/
def MenuValue.pyToInt : MenuValue → Int
  | .intVal n => n
  | .boolVal b => if b then 1 else 0
  | .statusVal _ => 0

/-- Python `not value` truthiness. -/
def MenuValue.pyNot : MenuValue → Bool
  | .intVal n => n = 0
  | .boolVal b => !b
  | .statusVal s => s = ""

/-- `MenuItem` from `settings.py`.  `min_val`/`max_val` default to `None` in
Python; items whose type never reads them (`bool`, `status`) carry 0 here. -/
structure MenuItem where
  name : String
  value_type : String
  value : MenuValue
  min_val : Int
  max_val : Int
  step : Int
  unit : String
deriving DecidableEq, Repr

/-- `MenuItem.increase`: clamp upward for "int", wrap modulo 60 or 24 for
"time" (60 exactly when `max_val == 59`), toggle for "bool", and do nothing
for any other type. -/
def MenuItem.increase (it : MenuItem) : MenuItem :=
  if it.value_type = "int" then
    { it with value := .intVal (min it.max_val (it.value.pyToInt + it.step)) }
  else if it.value_type = "time" then
    { it with value := .intVal ((it.value.pyToInt + 1) % (if it.max_val = 59 then 60 else 24)) }
  else if it.value_type = "bool" then
    { it with value := .boolVal it.value.pyNot }
  else it

/-- `MenuItem.decrease`: the mirror image of `increase`. -/
def MenuItem.decrease (it : MenuItem) : MenuItem :=
  if it.value_type = "int" then
    { it with value := .intVal (max it.min_val (it.value.pyToInt - it.step)) }
  else if it.value_type = "time" then
    { it with value := .intVal ((it.value.pyToInt - 1) % (if it.max_val = 59 then 60 else 24)) }
  else if it.value_type = "bool" then
    { it with value := .boolVal it.value.pyNot }
  else it

/-- The eight concrete menu items built in `Settings.__init__`. -/
def settings_items : List MenuItem :=
  [{ name := "Wecker1 Stunden", value_type := "time", value := .intVal 7,
     min_val := 0, max_val := 23, step := 1, unit := "" },
   { name := "Wecker1 Minuten", value_type := "time", value := .intVal 0,
     min_val := 0, max_val := 59, step := 1, unit := "" },
   { name := "Wecker2 Stunden", value_type := "time", value := .intVal 8,
     min_val := 0, max_val := 23, step := 1, unit := "" },
   { name := "Wecker2 Minuten", value_type := "time", value := .intVal 0,
     min_val := 0, max_val := 59, step := 1, unit := "" },
   { name := "Display Kontrast", value_type := "int", value := .intVal 128,
     min_val := 0, max_val := 255, step := 1, unit := "" },
   { name := "Uhr im Standby", value_type := "bool", value := .boolVal true,
     min_val := 0, max_val := 0, step := 1, unit := "" },
   { name := "Helligkeit", value_type := "int", value := .intVal 100,
     min_val := 10, max_val := 100, step := 10, unit := "%" },
   { name := "Status Info", value_type := "status", value := .statusVal "",
     min_val := 0, max_val := 0, step := 1, unit := "" }]

/-- `Settings.next_item`: move to the next menu item if not at the last one;
returns the new index and whether it moved.  (Defined in `settings.py`; no
code in `ui.py` ever calls it.) -/
def settings_next_item (current_item numItems : Nat) : Nat × Bool :=
  if current_item < numItems - 1 then (current_item + 1, true) else (current_item, false)

/-- `Settings.at_last_item`.  (Also never called from `ui.py`.) -/
def settings_at_last_item (current_item numItems : Nat) : Bool :=
  numItems - 1 ≤ current_item

/-! ### `ui.py`: the menu-button branch of `UI.handle_button` -/

/-- `UIMode` from `ui.py`. -/
inductive UIMode where
  | normal
  | menu
  | file_browser
  | sd_card_browser
  | volume
deriving DecidableEq, Repr

/-- The state read and written by a short press of the menu button, plus a
counter of `Settings.save_settings` calls (each call writes the settings
file once). -/
structure UIMenuContext where
  mode : UIMode
  standby : Bool
  current_item : Nat
  save_count : Nat
deriving DecidableEq, Repr

/-- `Settings.save_settings`: writes the settings JSON file.  Its only caller
in the program is `RadioWecker.cleanup` in `main.py`; `UI.handle_button`
never invokes it. -/
def save_settings (s : UIMenuContext) : UIMenuContext :=
  { s with save_count := s.save_count + 1 }

/-- The `elif button == "menu" and not self.state.standby:` branch of
`UI.handle_button` for a press event: in `Menu` mode set the mode back to
`Normal`, otherwise `show_main_menu()` sets the mode to `Menu`.  Nothing else
happens: no field is advanced and nothing is persisted. -/
def handle_menu_button (s : UIMenuContext) : UIMenuContext :=
  if s.standby then s
  else if s.mode = UIMode.menu then { s with mode := UIMode.normal }
  else { s with mode := UIMode.menu }

/-! ### Value-range invariant for menu items (claim C10) -/

/-- The value-range invariant of a settings field: an "int" item holds an
integer clamped to `[min_val, max_val]`, a "time" item holds an integer in
`[0, max_val]`, and a "bool" item holds a boolean. -/
def MenuItem.valueInRangeB (it : MenuItem) : Bool :=
  if it.value_type = "int" then
    match it.value with
    | .intVal n => decide (it.min_val ≤ n ∧ n ≤ it.max_val)
    | _ => false
  else if it.value_type = "time" then
    match it.value with
    | .intVal n => decide (0 ≤ n ∧ n ≤ it.max_val)
    | _ => false
  else if it.value_type = "bool" then
    match it.value with
    | .boolVal _ => true
    | _ => false
  else true

/-! ### Theorems -/

/-- C10: every call to `MenuItem.increase` or `MenuItem.decrease` preserves
the value-range invariant of a settings field: a "time" item stays within
`[0, max_val]` (wrapping modulo 60 when `max_val` is 59, modulo 24
otherwise), an "int" item stays clamped within `[min_val, max_val]`, and a
"bool" item stays boolean.  The hypotheses record the shape of the actual
settings fields (time items have `max_val` 59 or 23; int items have
`min_val ≤ max_val` and a non-negative step), which holds for every element
of `settings_items`. -/
theorem C10_menu_value_range (it : MenuItem)
    (htime : it.value_type = "time" → it.max_val = 59 ∨ it.max_val = 23)
    (hint : it.value_type = "int" → it.min_val ≤ it.max_val ∧ 0 ≤ it.step)
    (hinv : it.valueInRangeB = true) :
    it.increase.valueInRangeB = true ∧ it.decrease.valueInRangeB = true := by
  obtain ⟨nm, vt, v, mn, mx, stp, un⟩ := it
  by_cases hi : vt = "int"
  · subst hi
    obtain ⟨hmm, hst⟩ := hint rfl
    dsimp only at hmm hst
    rcases v with n | b | sv
    · simp [MenuItem.valueInRangeB, MenuItem.increase, MenuItem.decrease,
        MenuValue.pyToInt, min_def, max_def] at hinv ⊢
      constructor <;> split_ifs <;> omega
    · simp [MenuItem.valueInRangeB] at hinv
    · simp [MenuItem.valueInRangeB] at hinv
  · by_cases ht : vt = "time"
    · subst ht
      rcases v with n | b | sv
      · rcases htime rfl with h59 | h23
        · subst h59
          simp [MenuItem.valueInRangeB, MenuItem.increase, MenuItem.decrease,
            MenuValue.pyToInt] at hinv ⊢
          omega
        · subst h23
          simp [MenuItem.valueInRangeB, MenuItem.increase, MenuItem.decrease,
            MenuValue.pyToInt] at hinv ⊢
          omega
      · simp [MenuItem.valueInRangeB] at hinv
      · simp [MenuItem.valueInRangeB] at hinv
    · by_cases hb : vt = "bool"
      · subst hb
        rcases v with n | b | sv
        · simp [MenuItem.valueInRangeB] at hinv
        · simp [MenuItem.valueInRangeB, MenuItem.increase, MenuItem.decrease]
        · simp [MenuItem.valueInRangeB] at hinv
      · constructor <;>
          simpa [MenuItem.increase, MenuItem.decrease, hi, ht, hb] using hinv

/-- C10 witness: the invariant is preserved on the concrete "Helligkeit"
settings field (int, range 10–100, step 10). -/
theorem C10_menu_value_range_witness :
    ({ name := "Helligkeit", value_type := "int", value := .intVal 100,
       min_val := 10, max_val := 100, step := 10, unit := "%" } : MenuItem).increase.valueInRangeB = true
    ∧ ({ name := "Helligkeit", value_type := "int", value := .intVal 100,
         min_val := 10, max_val := 100, step := 10, unit := "%" } : MenuItem).decrease.valueInRangeB = true :=
  C10_menu_value_range _ (by decide) (by decide) (by decide)

/-- C4 counterexample: with the 8 settings fields, starting in `Normal` on
field 0, pressing the menu button 8 times does leave the mode `Normal`, but
the settings file is written zero times — not exactly once — and the field
selection never advances. -/
theorem C4_counterexample :
    (handle_menu_button^[8] ⟨UIMode.normal, false, 0, 0⟩).mode = UIMode.normal
    ∧ (handle_menu_button^[8] ⟨UIMode.normal, false, 0, 0⟩).save_count = 0
    ∧ (handle_menu_button^[8] ⟨UIMode.normal, false, 0, 0⟩).current_item = 0
    ∧ ¬ (handle_menu_button^[8] ⟨UIMode.normal, false, 0, 0⟩).save_count = 1 := by
  decide

/-- C4 (amended): outside standby, a short menu press in `Menu` mode exits to
`Normal` without advancing the settings selection and without persisting
settings; in any other mode it enters `Menu`.  Pressing menu 8 times from
`Normal` therefore returns the state unchanged: the mode is `Normal`, the
selection still points at field 0, and the settings file has never been
written (the only `save_settings` call in the program happens at shutdown
cleanup). -/
theorem C4_menu_button_toggles (s : UIMenuContext) (h : s.standby = false) :
    (s.mode = UIMode.menu → handle_menu_button s = { s with mode := UIMode.normal })
    ∧ (s.mode ≠ UIMode.menu → handle_menu_button s = { s with mode := UIMode.menu })
    ∧ (s.mode = UIMode.normal → handle_menu_button^[8] s = s) := by
  refine ⟨fun hm => ?_, fun hm => ?_, fun hm => ?_⟩
  · simp [handle_menu_button, h, hm]
  · simp [handle_menu_button, h, hm]
  · have key : handle_menu_button (handle_menu_button s) = s := by
      have h1 : handle_menu_button s = { s with mode := UIMode.menu } := by
        simp [handle_menu_button, h, hm]
      have h2 : handle_menu_button { s with mode := UIMode.menu }
          = { s with mode := UIMode.normal } := by
        simp [handle_menu_button, h]
      rw [h1, h2]
      cases s
      simp_all
    have key2 : handle_menu_button^[2] s = s := by
      rw [show (2 : Nat) = 1 + 1 from rfl, Function.iterate_add_apply]
      simpa using key
    have h8 : (8 : Nat) = 2 * 4 := by decide
    rw [h8, Function.iterate_mul]
    exact Function.iterate_fixed key2 4

/-- C4 witness: from the initial UI state the first press enters `Menu`, and
8 presses return to the initial state (so the settings file is written
exactly zero times). -/
theorem C4_menu_button_toggles_witness :
    handle_menu_button ⟨UIMode.normal, false, 0, 0⟩ = ⟨UIMode.menu, false, 0, 0⟩
    ∧ handle_menu_button^[8] ⟨UIMode.normal, false, 0, 0⟩ = ⟨UIMode.normal, false, 0, 0⟩ := by
  have h := C4_menu_button_toggles ⟨UIMode.normal, false, 0, 0⟩ rfl
  exact ⟨h.2.1 (by decide), h.2.2 rfl⟩

/-- C9 counterexample: a comment line (and likewise a blank line) is not
skipped by `load_stations` — its CSV row does not unpack into `name, url`,
so the comprehension raises an uncaught `ValueError` instead of returning the
remaining stations. -/
theorem C9_counterexample :
    load_stations (some ["# Senderliste", "SWR3,http://swr3.de"])
      = .error "ValueError: not enough values to unpack"
    ∧ load_stations (some ["SWR3,http://swr3.de", ""])
      = .error "ValueError: not enough values to unpack" :=
  ⟨rfl, rfl⟩

/-- C9 (amended): loading from a missing file yields the built-in default
list; a line that splits into exactly two comma-separated fields yields a
station with whitespace-stripped name and url when both fields are nonempty
and is skipped when either field is empty.  But blank lines and comment lines
are not skipped: any line whose CSV row does not have exactly two fields
raises an uncaught `ValueError`, which escapes `load_stations` (only
`FileNotFoundError` is handled). -/
theorem C9_load_stations (line : String) (rest : List String) :
    load_stations none = .ok default_stations
    ∧ (∀ n u sts, csvRow line = [n, u] → n ≠ "" → u ≠ "" →
        load_stations (some rest) = .ok sts →
        load_stations (some (line :: rest)) = .ok ({ name := pyStrip n, url := pyStrip u } :: sts))
    ∧ (∀ n u, csvRow line = [n, u] → (n = "" ∨ u = "") →
        load_stations (some (line :: rest)) = load_stations (some rest))
    ∧ ((csvRow line).length ≠ 2 →
        ∃ e, load_stations (some (line :: rest)) = .error e) := by
  refine ⟨rfl, ?_, ?_, ?_⟩
  · intro n u sts hrow hn hu hrest
    simp only [load_stations, List.map_cons, hrow] at hrest ⊢
    simp only [parseStationRows, hrest, if_pos (And.intro hn hu)]
  · intro n u hrow hempty
    simp only [load_stations, List.map_cons, hrow]
    have hne : ¬(n ≠ "" ∧ u ≠ "") := by
      rcases hempty with h | h <;> simp [h]
    simp only [parseStationRows, if_neg hne]
    cases hps : parseStationRows (rest.map csvRow) <;> rfl
  · intro hlen
    simp only [load_stations, List.map_cons]
    rcases hr : csvRow line with _ | ⟨a, _ | ⟨b, _ | ⟨c, tl⟩⟩⟩
    · exact ⟨_, rfl⟩
    · exact ⟨_, rfl⟩
    · rw [hr] at hlen
      simp at hlen
    · exact ⟨_, rfl⟩

/-- C9 witness: a two-field line with surrounding whitespace loads as the
stripped station, on top of the defaults fallback. -/
theorem C9_load_stations_witness :
    load_stations none = .ok default_stations
    ∧ load_stations (some ["SWR3 , http://swr3.de"])
        = .ok [{ name := "SWR3", url := "http://swr3.de" }] := by
  constructor
  · exact (C9_load_stations "" []).1
  · have h := (C9_load_stations "SWR3 , http://swr3.de" []).2.1
      "SWR3 " " http://swr3.de" [] (by decide) (by decide) (by decide) rfl
    rw [h]
    rfl

/-! ### Concrete fixtures used by witnesses and counterexamples -/

/-- A filesystem where every path is missing. -/
def fsEmpty : Filesystem :=
  { lookup := fun _ => .missing, walkTree := fun _ => none }

/-- Playable test entries. -/
def aF1 : AudioFile := { path := "/music/a1.mp3", is_dir := false, name := "a1.mp3", is_special := false }

def aF2 : AudioFile := { path := "/music/a2.mp3", is_dir := false, name := "a2.mp3", is_special := false }

def aF3 : AudioFile := { path := "/music/a3.mp3", is_dir := false, name := "a3.mp3", is_special := false }

/-- The ThisFolder entry of the test directory. -/
def tdEntry : AudioFile := { path := "/music", is_dir := false, name := THIS_DIR, is_special := true }

/-- A baseline coordinator state browsing a directory with three playable
files. -/
def baseAM : AMState :=
  { current_dir := "/music", files := [tdEntry, aF1, aF2, aF3],
    sd_card_mount_point := "/mnt/musik", sd_card_dir := "/mnt/musik", sd_card_files := [],
    current_station := none, current_file := none, current_sd_file := none,
    source := .radio, media_list := [], queue := [], playing := false }

/-! ### Playlist-builder bookkeeping lemmas -/

/-- `_create_playlist_from_file` never touches the current-item fields, the
playing flag or the command queue: it only rewrites the media list, the
source, and (in the directory branch) the USB browsing state. -/
theorem create_playlist_preserves_fields (fs : Filesystem)
    (sh : List AudioFile → List AudioFile) (s : AMState) (f : AudioFile) :
    ((_create_playlist_from_file fs sh s f).2).current_station = s.current_station
    ∧ ((_create_playlist_from_file fs sh s f).2).current_file = s.current_file
    ∧ ((_create_playlist_from_file fs sh s f).2).current_sd_file = s.current_sd_file
    ∧ ((_create_playlist_from_file fs sh s f).2).playing = s.playing
    ∧ ((_create_playlist_from_file fs sh s f).2).queue = s.queue := by
  unfold _create_playlist_from_file
  dsimp only
  refine ⟨?_, ?_, ?_, ?_, ?_⟩ <;> (repeat' split) <;> rfl

/-- The SD-card playlist builder enjoys the same preservation properties. -/
theorem create_sd_playlist_preserves_fields (fs : Filesystem)
    (sh : List AudioFile → List AudioFile) (s : AMState) (f : AudioFile) :
    ((_create_sd_card_playlist_from_file fs sh s f).2).current_station = s.current_station
    ∧ ((_create_sd_card_playlist_from_file fs sh s f).2).current_file = s.current_file
    ∧ ((_create_sd_card_playlist_from_file fs sh s f).2).current_sd_file = s.current_sd_file
    ∧ ((_create_sd_card_playlist_from_file fs sh s f).2).playing = s.playing
    ∧ ((_create_sd_card_playlist_from_file fs sh s f).2).queue = s.queue := by
  unfold _create_sd_card_playlist_from_file
  dsimp only
  refine ⟨?_, ?_, ?_, ?_, ?_⟩ <;> (repeat' split) <;> rfl

/-- C1 counterexample: from a reachable situation in which an SD entry is
selected (the constructor itself initializes `current_sd_file` from the SD
scan), processing a queued `PLAY_FILE` command runs `_play_file`, which sets
`current_file` and clears `current_station` but does not clear
`current_sd_file` — leaving two of the three current-item fields non-null at
once, contrary to the claimed invariant. -/
theorem C1_counterexample :
    (_play_file fsEmpty id { baseAM with current_sd_file := some aF3 } aF1).current_file = some aF1
    ∧ (_play_file fsEmpty id { baseAM with current_sd_file := some aF3 } aF1).current_sd_file = some aF3
    ∧ ¬ (_play_file fsEmpty id { baseAM with current_sd_file := some aF3 } aF1).current_sd_file = none := by
  decide

/-- C1 (amended): `_play_station`, the public `play_file`, and
`play_sd_card_file` each set their own current-item field and clear the two
fields of the other sources; but the queue-drain handler `_play_file` clears
only `current_station` and leaves `current_sd_file` exactly as it was, so the
at-most-one-field invariant is not maintained by every play operation. -/
theorem C1_play_operations_fields (fs : Filesystem)
    (sh : List AudioFile → List AudioFile) (s : AMState) (station : AudioStation)
    (f : AudioFile) :
    ((_play_station s station).current_station = some station
      ∧ (_play_station s station).current_file = none
      ∧ (_play_station s station).current_sd_file = none)
    ∧ ((play_file fs sh s f).current_file = some f
      ∧ (play_file fs sh s f).current_station = none
      ∧ (play_file fs sh s f).current_sd_file = none)
    ∧ ((play_sd_card_file fs sh s f).current_sd_file = some f
      ∧ (play_sd_card_file fs sh s f).current_station = none
      ∧ (play_sd_card_file fs sh s f).current_file = none)
    ∧ ((_play_file fs sh s f).current_file = some f
      ∧ (_play_file fs sh s f).current_station = none
      ∧ (_play_file fs sh s f).current_sd_file = s.current_sd_file) := by
  refine ⟨⟨rfl, rfl, rfl⟩, ?_, ?_, ?_⟩
  · unfold play_file
    dsimp only
    split
    next s3 heq =>
      obtain ⟨h1, h2, h3, _, _⟩ := create_playlist_preserves_fields fs sh
        { s with playing := false, current_file := some f, current_station := none,
                 current_sd_file := none, source := AudioSource.usb } f
      rw [heq] at h1 h2 h3
      exact ⟨h2, h1, h3⟩
    next s3 heq =>
      obtain ⟨h1, h2, h3, _, _⟩ := create_playlist_preserves_fields fs sh
        { s with playing := false, current_file := some f, current_station := none,
                 current_sd_file := none, source := AudioSource.usb } f
      rw [heq] at h1 h2 h3
      exact ⟨h2, h1, h3⟩
  · unfold play_sd_card_file
    dsimp only
    split
    next s3 heq =>
      obtain ⟨h1, h2, h3, _, _⟩ := create_sd_playlist_preserves_fields fs sh
        { s with playing := false, current_sd_file := some f, current_station := none,
                 current_file := none, source := AudioSource.sd_card } f
      rw [heq] at h1 h2 h3
      exact ⟨h3, h1, h2⟩
    next s3 heq =>
      obtain ⟨h1, h2, h3, _, _⟩ := create_sd_playlist_preserves_fields fs sh
        { s with playing := false, current_sd_file := some f, current_station := none,
                 current_file := none, source := AudioSource.sd_card } f
      rw [heq] at h1 h2 h3
      exact ⟨h3, h1, h2⟩
  · unfold _play_file _stop
    dsimp only
    split
    next s3 heq =>
      obtain ⟨h1, h2, h3, _, _⟩ := create_playlist_preserves_fields fs sh
        { s with current_file := some f, current_station := none,
                 playing := false, media_list := [] } f
      rw [heq] at h1 h2 h3
      exact ⟨h2, h1, h3⟩
    next s3 heq =>
      obtain ⟨h1, h2, h3, _, _⟩ := create_playlist_preserves_fields fs sh
        { s with current_file := some f, current_station := none,
                 playing := false, media_list := [] } f
      rw [heq] at h1 h2 h3
      exact ⟨h2, h1, h3⟩

/-- C3 counterexample: calling the playlist builder on a listing with no
playable entries returns `False`, but the media list that existed before the
call has already been cleared — the previous playback state is not left
untouched. -/
theorem C3_counterexample :
    (_create_playlist_from_file fsEmpty id
        { baseAM with files := [tdEntry], media_list := ["/music/a1.mp3"] } aF1).1 = false
    ∧ ((_create_playlist_from_file fsEmpty id
        { baseAM with files := [tdEntry], media_list := ["/music/a1.mp3"] } aF1).2).media_list = []
    ∧ ({ baseAM with files := [tdEntry], media_list := ["/music/a1.mp3"] } : AMState).media_list
        ≠ [] := by
  decide

/-- C3 (amended): whenever playlist building finds no playable entries, at
any of its three stages, it returns `False` — but the engine-level media list
has already been cleared unconditionally at the start of the call, so a
failed rebuild empties it instead of preserving it.  Per stage: for a start
entry other than the ThisFolder marker whose listing has no playable entries,
and for a ThisFolder start where both the recursive scan and the listing come
up empty, nothing besides the media list changes; for a directory start whose
re-scanned directory has no playable entries, the builder additionally scans
back, so `current_dir` is restored but `files` is rebuilt by a fresh scan of
the original directory (equal to the previous listing only when that listing
was itself current). -/
theorem C3_failed_rebuild (fs : Filesystem) (sh : List AudioFile → List AudioFile)
    (s : AMState) (start_file : AudioFile) :
    (¬(start_file.is_special = true ∧ start_file.name = THIS_DIR) →
      playable_files s.files = [] →
      _create_playlist_from_file fs sh s start_file = (false, { s with media_list := [] }))
    ∧ (start_file.is_special = true ∧ start_file.name = THIS_DIR →
      find_audio_files_recursively fs s.current_dir 100 = [] →
      playable_files s.files = [] →
      _create_playlist_from_file fs sh s start_file = (false, { s with media_list := [] }))
    ∧ (¬(start_file.is_special = true ∧ start_file.name = THIS_DIR) →
      start_file.is_dir = true →
      playable_files s.files ≠ [] →
      playable_files (amScanListing fs start_file.path) = [] →
      _create_playlist_from_file fs sh s start_file
        = (false, { s with media_list := [],
                           files := amScanListing fs s.current_dir })) := by
  refine ⟨fun h1 h2 => ?_, fun h1 h3 h2 => ?_, fun h1 hdir hpf hps => ?_⟩
  · unfold _create_playlist_from_file
    dsimp only
    rw [if_neg h1]
    simp [h2]
  · unfold _create_playlist_from_file
    dsimp only
    rw [if_pos h1]
    simp [h3, h2]
  · unfold _create_playlist_from_file
    dsimp only
    rw [if_neg h1, if_neg hpf, if_pos hdir]
    dsimp only [amScanDirectory]
    rw [hps]

/-- C3 witness: a concrete failed rebuild at the empty-listing stage returns
`False` with the media list cleared and nothing else changed; a concrete
failed rebuild at the directory-rescan stage returns `False` with the media
list cleared and the listing rebuilt from a fresh scan of the original
directory. -/
theorem C3_failed_rebuild_witness :
    _create_playlist_from_file fsEmpty id
        { baseAM with files := [tdEntry], media_list := ["/music/a1.mp3"] } aF1
      = (false, { baseAM with files := [tdEntry], media_list := [] })
    ∧ _create_playlist_from_file fsEmpty id { baseAM with media_list := ["/music/a1.mp3"] }
        { path := "/sub", is_dir := true, name := "sub", is_special := false }
      = (false, { baseAM with
                  media_list := [],
                  files := [mkAudioFile "/music" false (some "Directory not found") true] }) := by
  constructor
  · have h := (C3_failed_rebuild fsEmpty id
      { baseAM with files := [tdEntry], media_list := ["/music/a1.mp3"] } aF1).1
      (by decide) (by decide)
    rw [h]
  · have h := (C3_failed_rebuild fsEmpty id
      { baseAM with media_list := ["/music/a1.mp3"] }
      { path := "/sub", is_dir := true, name := "sub", is_special := false }).2.2
      (by decide) rfl (by decide) (by decide)
    rw [h]
    decide

/-- C2: in the rotation branch of `_create_playlist_from_file` (start entry
neither ThisFolder nor a directory, at least one playable entry), the built
playlist is exactly the playable entries of the listing — the listing
filtered to non-directory, non-special entries — in listing order rotated to
start at the chosen entry (first occurrence) and wrapping, hence a
permutation preserving every entry's multiplicity; when the start entry is
not among the playable entries the rotation index defaults to 0 and the
playlist is the playable list itself. -/
theorem C2_rule3_rotation (fs : Filesystem) (sh : List AudioFile → List AudioFile)
    (s : AMState) (start_file : AudioFile)
    (h1 : ¬(start_file.is_special = true ∧ start_file.name = THIS_DIR))
    (h2 : start_file.is_dir = false)
    (h3 : playable_files s.files ≠ []) :
    _create_playlist_from_file fs sh s start_file
      = (true, { s with
            media_list := mediaPaths (playlist_order (playable_files s.files) start_file)
            source := AudioSource.usb })
    ∧ playlist_order (playable_files s.files) start_file
        = (playable_files s.files).rotate
            (rotation_start_index (playable_files s.files) start_file)
    ∧ (playlist_order (playable_files s.files) start_file).Perm (playable_files s.files)
    ∧ (∀ x, (playlist_order (playable_files s.files) start_file).count x
          = (playable_files s.files).count x)
    ∧ (start_file ∈ playable_files s.files →
        (playlist_order (playable_files s.files) start_file).head? = some start_file)
    ∧ (start_file ∉ playable_files s.files →
        rotation_start_index (playable_files s.files) start_file = 0
        ∧ playlist_order (playable_files s.files) start_file = playable_files s.files) := by
  have hidx : rotation_start_index (playable_files s.files) start_file
      ≤ (playable_files s.files).length := by
    unfold rotation_start_index
    split
    · exact le_of_lt (List.indexOf_lt_length.2 (by assumption))
    · exact Nat.zero_le _
  have hrot : playlist_order (playable_files s.files) start_file
      = (playable_files s.files).rotate
          (rotation_start_index (playable_files s.files) start_file) := by
    unfold playlist_order
    rw [List.rotate_eq_drop_append_take hidx]
  have hperm : (playlist_order (playable_files s.files) start_file).Perm
      (playable_files s.files) := by
    rw [hrot]
    exact List.rotate_perm _ _
  refine ⟨?_, hrot, hperm, fun x => hperm.count_eq x, ?_, ?_⟩
  · unfold _create_playlist_from_file
    dsimp only
    rw [if_neg h1, if_neg h3, if_neg (by simp [h2])]
  · intro hmem
    have hlt : (playable_files s.files).indexOf start_file
        < (playable_files s.files).length := List.indexOf_lt_length.2 hmem
    have hidx0 : rotation_start_index (playable_files s.files) start_file
        = (playable_files s.files).indexOf start_file := by
      unfold rotation_start_index
      rw [if_pos hmem]
    unfold playlist_order
    rw [hidx0, List.drop_eq_getElem_cons hlt, List.getElem_indexOf hlt]
    rfl
  · intro hnmem
    have hidx0 : rotation_start_index (playable_files s.files) start_file = 0 := by
      unfold rotation_start_index
      rw [if_neg hnmem]
    refine ⟨hidx0, ?_⟩
    unfold playlist_order
    rw [hidx0]
    simp

/-- C2 witness: starting at the second playable file of the test directory
yields the rotated playlist a2, a3, a1. -/
theorem C2_rule3_rotation_witness :
    _create_playlist_from_file fsEmpty id baseAM aF2
      = (true, { baseAM with
            media_list := ["/music/a2.mp3", "/music/a3.mp3", "/music/a1.mp3"]
            source := AudioSource.usb }) := by
  have h := (C2_rule3_rotation fsEmpty id baseAM aF2 (by decide) rfl (by decide)).1
  rw [h]
  decide

/-- The per-directory file loop never grows the accumulator beyond
`maxFiles`: the bound is checked before every append. -/
theorem walkFilesStep_length_le (m : Nat) (root : String) :
    ∀ (files : List String) (acc : List AudioFile), acc.length ≤ m →
      (walkFilesStep m root files acc).length ≤ m := by
  intro files
  induction files with
  | nil =>
      intro acc h
      simpa [walkFilesStep] using h
  | cons f rest ih =>
      intro acc h
      unfold walkFilesStep
      split
      · exact ih acc h
      · split
        · exact h
        · split
          · apply ih
            have hlt : acc.length < m := Nat.lt_of_not_le (by assumption)
            simp only [List.length_append, List.length_cons, List.length_nil]
            omega
          · exact ih acc h

/-- Descending into subdirectories preserves the `maxFiles` bound (strong
induction on the size of the forest). -/
theorem findRecDirs_length_le (m : Nat) :
    ∀ (k : Nat) (p : String) (ds : FSForest) (acc : List AudioFile),
      sizeOf ds ≤ k → acc.length ≤ m → (findRecDirs m p ds acc).length ≤ m := by
  intro k
  induction k with
  | zero =>
      intro p ds acc hk h
      cases ds with
      | nil =>
          rw [findRecDirs.eq_def]
          exact h
      | cons n t rest =>
          simp only [FSForest.cons.sizeOf_spec] at hk
          omega
  | succ k ih =>
      intro p ds acc hk h
      cases ds with
      | nil =>
          rw [findRecDirs.eq_def]
          exact h
      | cons n t rest =>
          rw [findRecDirs.eq_def]
          dsimp only
          cases t with
          | node files dirs =>
              simp only [FSForest.cons.sizeOf_spec, FSTree.node.sizeOf_spec] at hk
              split
              · exact ih p rest acc (by omega) h
              · dsimp only
                exact ih p rest _ (by omega)
                  (ih (pathJoin p n) dirs _ (by omega)
                    (walkFilesStep_length_le m (pathJoin p n) files acc h))

/-- `os.walk` over a subtree never collects more than `maxFiles` entries. -/
theorem findRecTree_length_le (m : Nat) (d : String) (t : FSTree)
    (acc : List AudioFile) (h : acc.length ≤ m) :
    (findRecTree m d t acc).length ≤ m := by
  cases t with
  | node files dirs =>
      exact findRecDirs_length_le m (sizeOf dirs) d dirs _ (Nat.le_refl _)
        (walkFilesStep_length_le m d files acc h)

/-- C7: the recursive finder never returns more than `maxFiles` entries, for
any subtree however large; and the recursive ThisFolder playlist (built from
a non-empty recursive scan, shuffled and truncated to 20 entries) never
exceeds the configured cap of at most 30 entries. -/
theorem C7_bounded_recursive_playlist :
    (∀ (fs : Filesystem) (directory : String) (maxFiles : Nat),
        (find_audio_files_recursively fs directory maxFiles).length ≤ maxFiles)
    ∧ (∀ (fs : Filesystem) (sh : List AudioFile → List AudioFile) (s : AMState)
        (start_file : AudioFile),
        start_file.is_special = true → start_file.name = THIS_DIR →
        find_audio_files_recursively fs s.current_dir 100 ≠ [] →
        ((_create_playlist_from_file fs sh s start_file).2).media_list.length ≤ 30) := by
  constructor
  · intro fs directory maxFiles
    unfold find_audio_files_recursively
    cases fs.walkTree directory with
    | none => simp
    | some t => exact findRecTree_length_le maxFiles directory t [] (by simp)
  · intro fs sh s start_file hsp hname hne
    unfold _create_playlist_from_file
    dsimp only
    rw [if_pos (And.intro hsp hname), if_pos hne]
    dsimp only [mediaPaths]
    simp only [List.length_map, List.length_take]
    exact le_trans (Nat.min_le_left _ _) (by norm_num)

/-- A filesystem whose only walkable subtree holds one audio file. -/
def fsWalk : Filesystem :=
  { lookup := fun _ => .missing
    walkTree := fun p => if p = "/music" then some (.node ["b1.mp3"] .nil) else none }

/-- C7 witness: a concrete ThisFolder playlist from a non-empty recursive
scan stays within the cap. -/
theorem C7_bounded_recursive_playlist_witness :
    ((_create_playlist_from_file fsWalk id baseAM tdEntry).2).media_list.length ≤ 30 :=
  C7_bounded_recursive_playlist.2 fsWalk id baseAM tdEntry rfl rfl (by decide)

/-! ### Scan-shape helpers -/

theorem mkAudioFile_is_special (p : String) (d : Bool) (n : Option String) (sp : Bool) :
    (mkAudioFile p d n sp).is_special = sp := rfl

theorem mkAudioFile_is_dir (p : String) (d : Bool) (n : Option String) (sp : Bool) :
    (mkAudioFile p d n sp).is_dir = d := rfl

theorem mkAudioFile_name_of_ne (p : String) (d : Bool) (n : String) (sp : Bool)
    (h : n ≠ "") : (mkAudioFile p d (some n) sp).name = n := by
  simp [mkAudioFile, h]

/-- Python's string order is total. -/
theorem charListLe_total : ∀ (as bs : List Char),
    charListLe as bs = true ∨ charListLe bs as = true := by
  intro as
  induction as with
  | nil => intro bs; exact Or.inl rfl
  | cons a as ih =>
      intro bs
      cases bs with
      | nil => exact Or.inr rfl
      | cons b bs =>
          by_cases hab : a.toNat < b.toNat
          · left
            simp [charListLe, hab]
          · by_cases hba : b.toNat < a.toNat
            · right
              simp [charListLe, hba]
            · rcases ih bs with h | h
              · left
                simp [charListLe, hab, hba, h]
              · right
                simp [charListLe, hab, hba, h]

/-- Python's string order is transitive. -/
theorem charListLe_trans : ∀ (as bs cs : List Char),
    charListLe as bs = true → charListLe bs cs = true → charListLe as cs = true := by
  intro as
  induction as with
  | nil => intro bs cs h1 h2; rfl
  | cons a as ih =>
      intro bs cs h1 h2
      cases bs with
      | nil => simp [charListLe] at h1
      | cons b bs =>
          cases cs with
          | nil => simp [charListLe] at h2
          | cons c cs =>
              simp only [charListLe] at h1 h2 ⊢
              split_ifs at h1 h2 ⊢ <;>
                first
                | rfl
                | omega
                | exact ih bs cs h1 h2

instance : IsTotal DirEntry (fun a b => strLe a.name b.name = true) :=
  ⟨fun a b => charListLe_total a.name.data b.name.data⟩

instance : IsTrans DirEntry (fun a b => strLe a.name b.name = true) :=
  ⟨fun a b c hab hbc => charListLe_trans a.name.data b.name.data c.name.data hab hbc⟩

theorem pySortedEntries_sorted (es : List DirEntry) :
    List.Sorted (fun a b : DirEntry => strLe a.name b.name = true) (pySortedEntries es) :=
  List.sorted_insertionSort _ es

theorem pySortedEntries_perm (es : List DirEntry) : (pySortedEntries es).Perm es :=
  List.perm_insertionSort _ es

/-- Name order on listing entries: the (case-sensitive) code-point order the
code actually sorts by. -/
def nameLe (a b : AudioFile) : Prop := strLe a.name b.name = true

/-- Case-insensitive name order, as asserted by the specification. -/
def nameCaseInsensitiveLe (a b : AudioFile) : Prop :=
  charListLe (a.name.data.map Char.toLower) (b.name.data.map Char.toLower) = true

instance : DecidableRel nameLe := fun a b =>
  inferInstanceAs (Decidable (strLe a.name b.name = true))

instance : DecidableRel nameCaseInsensitiveLe := fun x y =>
  inferInstanceAs (Decidable (charListLe (x.name.data.map Char.toLower) (y.name.data.map Char.toLower) = true))

/-- Each group of a scan (a filtered slice of the sorted listing, mapped to
`AudioFile`s whose names copy the listing names) is sorted by name. -/
theorem scan_group_sorted_names (es : List DirEntry) (φ : DirEntry → Bool)
    (f : DirEntry → AudioFile) (hname : ∀ e ∈ es, (f e).name = e.name) :
    List.Sorted nameLe (((pySortedEntries es).filter φ).map f) := by
  refine List.pairwise_map.2 ?_
  have hs : List.Pairwise (fun a b : DirEntry => strLe a.name b.name = true)
      ((pySortedEntries es).filter φ) :=
    List.Pairwise.sublist (List.filter_sublist _) (pySortedEntries_sorted es)
  refine hs.imp_of_mem ?_
  intro a b ha hb hab
  have ha2 : a ∈ es := (pySortedEntries_perm es).mem_iff.1 (List.mem_of_mem_filter ha)
  have hb2 : b ∈ es := (pySortedEntries_perm es).mem_iff.1 (List.mem_of_mem_filter hb)
  unfold nameLe
  rw [hname a ha2, hname b hb2]
  exact hab

/-- `_create_playlist_from_file` on a start entry that is not the ThisFolder
marker fails (returning `False` with the media list cleared and nothing else
changed) whenever the listing has no playable entries. -/
theorem create_playlist_fail_not_thisdir (fs : Filesystem)
    (sh : List AudioFile → List AudioFile) (s : AMState) (start_file : AudioFile)
    (h1 : ¬(start_file.is_special = true ∧ start_file.name = THIS_DIR))
    (h2 : playable_files s.files = []) :
    _create_playlist_from_file fs sh s start_file = (false, { s with media_list := [] }) := by
  unfold _create_playlist_from_file
  dsimp only
  rw [if_neg h1]
  simp [h2]

/-- C5 counterexample: scanning a missing path produces a single special
error entry, so the first element of the scan is not the ThisFolder entry,
and no Back entry is present even though the path differs from the root —
the claimed shape does not hold for every scanned path. -/
theorem C5_counterexample :
    (scan_directory fsEmpty "/usb" false "/").head?
        = some (mkAudioFile "/usb" false (some "USB not mounted") true)
    ∧ (mkAudioFile "/usb" false (some "USB not mounted") true).name ≠ THIS_DIR
    ∧ ("/usb" : String) ≠ "/"
    ∧ ¬(∃ e ∈ scan_directory fsEmpty "/usb" false "/",
          e.is_special = true ∧ e.name = fsBACK) := by
  decide

/-- C5 (amended): `scan_directory` always returns a non-empty list; whenever
the path exists and its listing succeeds, the first element is the ThisFolder
special entry and a special Back entry is present exactly when the scanned
path differs from the configured root.  (On the failure paths the single
returned element is a special error entry instead.) -/
theorem C5_scan_shape (fs : Filesystem) (directory : String) (is_sd_card : Bool)
    (root_path : String) :
    scan_directory fs directory is_sd_card root_path ≠ []
    ∧ (∀ es, fs.lookup directory = .entries es →
        (scan_directory fs directory is_sd_card root_path).head?
            = some (mkAudioFile directory false (some THIS_DIR) true)
        ∧ ((∃ e ∈ scan_directory fs directory is_sd_card root_path,
              e.is_special = true ∧ e.name = fsBACK) ↔ directory ≠ root_path)) := by
  constructor
  · unfold scan_directory
    dsimp only
    split <;> simp
  · intro es hlk
    constructor
    · unfold scan_directory
      rw [hlk]
      dsimp only
      rw [List.singleton_append]
      rfl
    · unfold scan_directory
      rw [hlk]
      dsimp only
      by_cases hroot : directory = root_path
      · rw [if_neg (fun hc => hc hroot)]
        constructor
        · rintro ⟨e, he, hsp, hname⟩
          exfalso
          simp only [List.nil_append, List.singleton_append, List.mem_cons,
            List.mem_append, List.mem_map] at he
          rcases he with (rfl | ⟨x, hx, hxe⟩) | ⟨x, hx, hxe⟩
          · rw [mkAudioFile_name_of_ne _ _ _ _ (by decide)] at hname
            exact absurd hname (by decide)
          · rw [← hxe, mkAudioFile_is_special] at hsp
            exact absurd hsp (by decide)
          · rw [← hxe, mkAudioFile_is_special] at hsp
            exact absurd hsp (by decide)
        · intro hne2
          exact absurd hroot hne2
      · rw [if_pos hroot]
        constructor
        · intro
          exact hroot
        · intro
          refine ⟨mkAudioFile directory false (some fsBACK) true, ?_, rfl, ?_⟩
          · simp
          · exact mkAudioFile_name_of_ne _ _ _ _ (by decide)

/-- A filesystem with one listable directory holding two audio files whose
names differ in case. -/
def fsC6 : Filesystem :=
  { lookup := fun p =>
      if p = "/" then
        .entries [{ name := "B.mp3", isDir := false, isFile := true },
                  { name := "a.mp3", isDir := false, isFile := true }]
      else .missing
    walkTree := fun _ => none }

/-- C5 witness: scanning the listable directory under a different root yields
ThisFolder first and contains a special Back entry. -/
theorem C5_scan_shape_witness :
    (scan_directory fsC6 "/" false "/mnt").head?
        = some (mkAudioFile "/" false (some THIS_DIR) true)
    ∧ ((∃ e ∈ scan_directory fsC6 "/" false "/mnt",
          e.is_special = true ∧ e.name = fsBACK) ↔ ("/" : String) ≠ "/mnt") :=
  (C5_scan_shape fsC6 "/" false "/mnt").2 _ rfl

/-- C6 counterexample: the file group of a scan is ordered by Python's
case-sensitive `sorted`, so "B.mp3" precedes "a.mp3" — which is not
case-insensitive order ("a.mp3" would come first). -/
theorem C6_counterexample :
    ((scan_directory fsC6 "/" false "/").filter
        (fun e => !e.is_dir && !e.is_special)).map AudioFile.name = ["B.mp3", "a.mp3"]
    ∧ ¬ List.Sorted nameCaseInsensitiveLe
        ((scan_directory fsC6 "/" false "/").filter
          (fun e => !e.is_dir && !e.is_special)) := by
  constructor
  · decide
  · decide

/-- C6 (amended): within every successful scan, the result decomposes into
the special entries, then the subdirectory group, then the audio-file group —
all directory entries precede all file entries — and each group is sorted by
name in Python's case-sensitive code-point order (only names are compared, so
stability is immaterial).  The hypothesis that listing names are non-empty
reflects what `os.listdir` guarantees. -/
theorem C6_scan_groups (fs : Filesystem) (directory : String) (is_sd_card : Bool)
    (root_path : String) (es : List DirEntry)
    (hlk : fs.lookup directory = .entries es)
    (hne : ∀ e ∈ es, e.name ≠ "") :
    ∃ pre dirsG filesG,
      scan_directory fs directory is_sd_card root_path = pre ++ (dirsG ++ filesG)
      ∧ (∀ e ∈ pre, e.is_special = true)
      ∧ (∀ e ∈ dirsG, e.is_dir = true ∧ e.is_special = false)
      ∧ (∀ e ∈ filesG, e.is_dir = false ∧ e.is_special = false)
      ∧ List.Sorted nameLe dirsG
      ∧ List.Sorted nameLe filesG := by
  refine ⟨[mkAudioFile directory false (some THIS_DIR) true]
        ++ (if directory ≠ root_path then
              [mkAudioFile directory false (some fsBACK) true]
            else []),
      ((pySortedEntries es).filter (fun e => e.isDir && !startsWithDot e.name)).map
        (fun e => mkAudioFile (pathJoin directory e.name) true (some e.name) false),
      ((pySortedEntries es).filter (fun e => e.isFile && is_audio_file e.name)).map
        (fun e => mkAudioFile (pathJoin directory e.name) false (some e.name) false),
      ?_, ?_, ?_, ?_, ?_, ?_⟩
  · unfold scan_directory
    rw [hlk]
    dsimp only
    simp [List.append_assoc]
  · intro e he
    rcases List.mem_append.1 he with h | h
    · rw [List.mem_singleton.1 h]
      rfl
    · by_cases hroot : directory ≠ root_path
      · rw [if_pos hroot] at h
        rw [List.mem_singleton.1 h]
        rfl
      · rw [if_neg hroot] at h
        exact absurd h (List.not_mem_nil e)
  · intro e he
    obtain ⟨x, hx, rfl⟩ := List.mem_map.1 he
    exact ⟨rfl, rfl⟩
  · intro e he
    obtain ⟨x, hx, rfl⟩ := List.mem_map.1 he
    exact ⟨rfl, rfl⟩
  · exact scan_group_sorted_names es _ _
      (fun e hee => mkAudioFile_name_of_ne _ _ _ _ (hne e hee))
  · exact scan_group_sorted_names es _ _
      (fun e hee => mkAudioFile_name_of_ne _ _ _ _ (hne e hee))

/-- C6 witness: the concrete two-file scan decomposes into sorted groups. -/
theorem C6_scan_groups_witness :
    ∃ pre dirsG filesG,
      scan_directory fsC6 "/" false "/" = pre ++ (dirsG ++ filesG)
      ∧ (∀ e ∈ pre, e.is_special = true)
      ∧ (∀ e ∈ dirsG, e.is_dir = true ∧ e.is_special = false)
      ∧ (∀ e ∈ filesG, e.is_dir = false ∧ e.is_special = false)
      ∧ List.Sorted nameLe dirsG
      ∧ List.Sorted nameLe filesG :=
  C6_scan_groups fsC6 "/" false "/" _ rfl (by decide)

/-- C8: scanning a path that does not exist returns a single-element list
whose only entry is special, is not a directory, and carries a "… not
mounted" failure name that is neither the ThisFolder name nor either Back
name; and navigating to such an entry (special, not a directory, name
neither Back nor ThisFolder) from a listing with no playable entries reports
no directory change, leaves the listing and current directory untouched, and
starts no playback (the playing flag is down and the engine media list is
empty afterwards). -/
theorem C8_missing_scan_and_noop :
    (∀ (fs : Filesystem) (p : String) (is_sd_card : Bool) (root_path : String),
        fs.lookup p = .missing →
        scan_directory fs p is_sd_card root_path
          = [mkAudioFile p false
              (some ((if is_sd_card then "SD card" else "USB") ++ " not mounted")) true]
        ∧ ∀ e ∈ scan_directory fs p is_sd_card root_path,
            e.is_special = true ∧ e.is_dir = false
            ∧ e.name ≠ THIS_DIR ∧ e.name ≠ fsBACK ∧ e.name ≠ amBACK)
    ∧ (∀ (fs : Filesystem) (sh : List AudioFile → List AudioFile) (s : AMState)
        (e : AudioFile),
        e.is_special = true → e.is_dir = false → e.name ≠ amBACK → e.name ≠ THIS_DIR →
        playable_files s.files = [] →
        (navigate_to fs sh s e).1 = false
        ∧ ((navigate_to fs sh s e).2).files = s.files
        ∧ ((navigate_to fs sh s e).2).current_dir = s.current_dir
        ∧ ((navigate_to fs sh s e).2).playing = false
        ∧ ((navigate_to fs sh s e).2).media_list = []) := by
  constructor
  · intro fs p is_sd_card root_path h
    have heq : scan_directory fs p is_sd_card root_path
        = [mkAudioFile p false
            (some ((if is_sd_card then "SD card" else "USB") ++ " not mounted")) true] := by
      unfold scan_directory
      rw [h]
    refine ⟨heq, ?_⟩
    rw [heq]
    intro e he
    rw [List.mem_singleton.1 he]
    cases is_sd_card <;>
      · refine ⟨rfl, rfl, ?_, ?_, ?_⟩ <;>
          · rw [mkAudioFile_name_of_ne _ _ _ _ (by decide)]
            decide
  · intro fs sh s e hsp hdir hnb hnt hpl
    unfold navigate_to
    rw [if_neg (by simp [hdir]), if_neg (fun hc => hnb hc.2), if_neg (fun hc => hnt hc.2)]
    dsimp only
    unfold play_file
    dsimp only
    have hc := create_playlist_fail_not_thisdir fs sh
      { s with playing := false, current_file := some e, current_station := none,
               current_sd_file := none, source := AudioSource.usb } e
      (fun hcon => hnt hcon.2) hpl
    rw [hc]
    exact ⟨rfl, rfl, rfl, rfl, rfl⟩

/-- C8 witness: the concrete "USB not mounted" entry of a failed scan is a
special non-navigation entry, and selecting it changes neither the listing
nor starts playback. -/
theorem C8_missing_scan_and_noop_witness :
    scan_directory fsEmpty "/usb" false "/"
      = [mkAudioFile "/usb" false (some "USB not mounted") true]
    ∧ (navigate_to fsEmpty id
        { baseAM with files := [mkAudioFile "/usb" false (some "USB not mounted") true] }
        (mkAudioFile "/usb" false (some "USB not mounted") true)).1 = false
    ∧ ((navigate_to fsEmpty id
        { baseAM with files := [mkAudioFile "/usb" false (some "USB not mounted") true] }
        (mkAudioFile "/usb" false (some "USB not mounted") true)).2).files
      = [mkAudioFile "/usb" false (some "USB not mounted") true] := by
  have hA := (C8_missing_scan_and_noop.1 fsEmpty "/usb" false "/" rfl).1
  have hB := C8_missing_scan_and_noop.2 fsEmpty id
    { baseAM with files := [mkAudioFile "/usb" false (some "USB not mounted") true] }
    (mkAudioFile "/usb" false (some "USB not mounted") true)
    rfl rfl (by decide) (by decide) (by decide)
  exact ⟨hA, hB.1, hB.2.1.trans rfl⟩

end Radiowecker
